import Mathlib

/-!
Shallow embedding of the CustomerAddressService (src/server/index.js).

The relational store is modelled as explicit lists of customer and address
rows plus the store-generated id counters.  Each HTTP handler becomes a pure
function from a request payload and a store to a response and the resulting
store; a transaction's ROLLBACK is modelled by returning the original store.
JS string truthiness is modelled by emptiness (an absent body field and the
empty string behave identically in every handler).
-/

namespace CustomerAddressService

/-- Row of the customers table: id is store-generated, unique. -/
structure Customer where
  id : Nat
  first_name : String
  last_name : String
  phone_number : String
deriving Repr, DecidableEq

/-- Row of the addresses table: id store-generated, customer_id a reference. -/
structure Address where
  id : Nat
  customer_id : Nat
  address_details : String
  city : String
  state : String
  pin_code : String
deriving Repr, DecidableEq

/-- The relational store: both tables plus the id sequences. -/
structure Store where
  customers : List Customer
  addresses : List Address
  nextCustomerId : Nat
  nextAddressId : Nat
deriving Repr, DecidableEq

/-- HTTP response: status code plus the JSON body fields the handlers use. -/
structure Response where
  status : Nat
  message : Option String
  error : Option String
  customerId : Option Nat
deriving Repr, DecidableEq

/-- Response carrying only an error string (res.status(s).json bodies). -/
def respErr (s : Nat) (e : String) : Response := ⟨s, none, some e, none⟩

/-- Response carrying only a message (res.json with default status 200). -/
def respMsg (s : Nat) (m : String) : Response := ⟨s, some m, none, none⟩

/-- Body of POST /api/customers and PUT /api/customers/:id. -/
structure CustomerPayload where
  first_name : String
  last_name : String
  phone_number : String
  address_details : String
  city : String
  state : String
  pin_code : String
deriving Repr, DecidableEq

/-- Body of POST /api/addresses; JS falsiness of customer_id is 0. -/
structure PostAddressPayload where
  customer_id : Nat
  address_details : String
  city : String
  state : String
  pin_code : String
deriving Repr, DecidableEq

/-- Body of PUT /api/addresses/:id and POST /api/customers/:id/addresses. -/
structure AddressFieldsPayload where
  address_details : String
  city : String
  state : String
  pin_code : String
deriving Repr, DecidableEq

/-- The JS regex test for ^\d{n}$: exactly n characters, all in 0-9. -/
def isDigitsLen (n : Nat) (s : String) : Bool :=
  s.length == n && s.toList.all (fun ch => ch.isDigit)

/-- The addresses rows whose customer_id equals cid (WHERE customer_id = $1). -/
def addrsOf (st : Store) (cid : Nat) : List Address :=
  st.addresses.filter (fun a => a.customer_id == cid)

/-- POST /api/customers: validation, duplicate check inside the transaction,
then customer insert followed by address insert; ROLLBACK keeps the store. -/
def createCustomer (st : Store) (r : CustomerPayload) : Response × Store :=
  if r.first_name.isEmpty || r.last_name.isEmpty || r.phone_number.isEmpty
      || r.address_details.isEmpty || r.city.isEmpty || r.state.isEmpty
      || r.pin_code.isEmpty then
    (respErr 400 "All fields are required.", st)
  else if !isDigitsLen 10 r.phone_number then
    (respErr 400 "Phone number must be 10 digits.", st)
  else if !isDigitsLen 6 r.pin_code then
    (respErr 400 "Pin code must be 6 digits.", st)
  else if st.customers.any (fun c =>
      c.first_name == r.first_name && c.last_name == r.last_name
        && c.phone_number == r.phone_number) then
    (respErr 409 "Customer with this name and phone number already exists.", st)
  else
    let cid := st.nextCustomerId
    let c : Customer := ⟨cid, r.first_name, r.last_name, r.phone_number⟩
    let a : Address :=
      ⟨st.nextAddressId, cid, r.address_details, r.city, r.state, r.pin_code⟩
    (⟨201, some "Customer and address created successfully.", none, some cid⟩,
     ⟨st.customers ++ [c], st.addresses ++ [a], cid + 1, st.nextAddressId + 1⟩)

/-- PUT /api/customers/:id: validate name/phone, UPDATE the customer row
(rowCount 0 means not found, transaction rolled back), then insert a new
address row only when all four address fields are truthy; the success message
tests only address_details. -/
def updateCustomer (st : Store) (cid : Nat) (r : CustomerPayload) :
    Response × Store :=
  if r.first_name.isEmpty || r.last_name.isEmpty || r.phone_number.isEmpty then
    (respErr 400 "First name, last name and phone number are required.", st)
  else if !isDigitsLen 10 r.phone_number then
    (respErr 400 "Phone number must be 10 digits.", st)
  else
    let customers1 := st.customers.map (fun c =>
      if c.id == cid then ⟨c.id, r.first_name, r.last_name, r.phone_number⟩
      else c)
    let rowCount := st.customers.countP (fun c => c.id == cid)
    if rowCount == 0 then
      (respErr 404 "Customer not found.", st)
    else
      let doInsert := !r.address_details.isEmpty && !r.city.isEmpty
        && !r.state.isEmpty && !r.pin_code.isEmpty
      let addresses1 :=
        if doInsert then
          st.addresses ++
            [⟨st.nextAddressId, cid, r.address_details, r.city, r.state,
              r.pin_code⟩]
        else st.addresses
      let nextA := if doInsert then st.nextAddressId + 1 else st.nextAddressId
      (respMsg 200 (if !r.address_details.isEmpty then
          "Customer and address updated successfully."
        else "Customer updated successfully."),
       ⟨customers1, addresses1, st.nextCustomerId, nextA⟩)

/-- DELETE /api/customers/:id: inside one transaction delete the address rows
first, then the customer row; rowCount 0 on the customer delete triggers
ROLLBACK (the original store is kept) and a 404. -/
def deleteCustomer (st : Store) (cid : Nat) : Response × Store :=
  let addresses1 := st.addresses.filter (fun a => !(a.customer_id == cid))
  let remaining := st.customers.filter (fun c => !(c.id == cid))
  let rowCount := st.customers.length - remaining.length
  if rowCount == 0 then
    (respErr 404 "Customer not found.", st)
  else
    (respMsg 200 "Customer and all associated addresses deleted successfully.",
     ⟨remaining, addresses1, st.nextCustomerId, st.nextAddressId⟩)

/-- POST /api/addresses: presence check only (no pin-code regex, no customer
existence check), then a single INSERT. -/
def postAddresses (st : Store) (r : PostAddressPayload) : Response × Store :=
  if r.customer_id == 0 || r.address_details.isEmpty || r.city.isEmpty
      || r.state.isEmpty || r.pin_code.isEmpty then
    (respErr 400 "All fields required.", st)
  else
    (⟨201, some "created", none, none⟩,
     ⟨st.customers,
      st.addresses ++
        [⟨st.nextAddressId, r.customer_id, r.address_details, r.city, r.state,
          r.pin_code⟩],
      st.nextCustomerId, st.nextAddressId + 1⟩)

/-- PUT /api/addresses/:id: presence check, single UPDATE matched by id. -/
def putAddress (st : Store) (aid : Nat) (r : AddressFieldsPayload) :
    Response × Store :=
  if r.address_details.isEmpty || r.city.isEmpty || r.state.isEmpty
      || r.pin_code.isEmpty then
    (respErr 400 "All fields required.", st)
  else
    let rowCount := st.addresses.countP (fun a => a.id == aid)
    if rowCount == 0 then
      (respErr 404 "Address not found.", st)
    else
      (respMsg 200 "updated",
       ⟨st.customers,
        st.addresses.map (fun a =>
          if a.id == aid then
            ⟨a.id, a.customer_id, r.address_details, r.city, r.state,
              r.pin_code⟩
          else a),
        st.nextCustomerId, st.nextAddressId⟩)

/-- DELETE /api/addresses/:id: single DELETE matched by id. -/
def deleteAddress (st : Store) (aid : Nat) : Response × Store :=
  let remaining := st.addresses.filter (fun a => !(a.id == aid))
  if st.addresses.length - remaining.length == 0 then
    (respErr 404 "Address not found.", st)
  else
    (respMsg 200 "Address deleted successfully.",
     ⟨st.customers, remaining, st.nextCustomerId, st.nextAddressId⟩)

/-- POST /api/customers/:id/addresses: presence check, pin-code regex, then a
single INSERT using the path id (no customer existence check). -/
def postCustomerAddress (st : Store) (cid : Nat) (r : AddressFieldsPayload) :
    Response × Store :=
  if r.address_details.isEmpty || r.city.isEmpty || r.state.isEmpty
      || r.pin_code.isEmpty then
    (respErr 400 "All address fields are required.", st)
  else if !isDigitsLen 6 r.pin_code then
    (respErr 400 "Pin code must be 6 digits.", st)
  else
    (⟨201, some "Address added", none, none⟩,
     ⟨st.customers,
      st.addresses ++
        [⟨st.nextAddressId, cid, r.address_details, r.city, r.state,
          r.pin_code⟩],
      st.nextCustomerId, st.nextAddressId + 1⟩)

/-- JS String.prototype.trim, modelled structurally on the char list so
that concrete stores evaluate inside the kernel. -/
def strTrim (s : String) : String :=
  ⟨((s.data.dropWhile Char.isWhitespace).reverse.dropWhile
      Char.isWhitespace).reverse⟩

/-- Lower-casing for the ILIKE comparison, modelled structurally. -/
def strToLower (s : String) : String :=
  ⟨s.data.map Char.toLower⟩

/-- Containment of one character list in another (the %term% LIKE shape). -/
def containsSub (needle : List Char) : List Char → Bool
  | [] => needle.isEmpty
  | b :: bs => needle.isPrefixOf (b :: bs) || containsSub needle bs

/-- The ILIKE pattern both list queries build is a case-insensitive
containment test for the term between two percent wildcards. -/
def ilikeContains (term s : String) : Bool :=
  containsSub (strToLower term).toList (strToLower s).toList

/-- LEFT JOIN addresses a ON c.id = a.customer_id, restricted to one
customer: its address rows, or the single all-NULL row when it has none. -/
def rowsFor (st : Store) (c : Customer) : List (Customer × Option Address) :=
  let as1 := addrsOf st c.id
  if as1.isEmpty then [(c, none)] else as1.map (fun a => (c, some a))

/-- FROM customers c LEFT JOIN addresses a ON c.id = a.customer_id. -/
def joinRows (st : Store) : List (Customer × Option Address) :=
  st.customers.flatMap (rowsFor st)

/-- The OR-combined WHERE condition of the list, count and search queries;
an ILIKE against a NULL address column is NULL, hence not a match. -/
def matchRow (term : String) (p : Customer × Option Address) : Bool :=
  ilikeContains term p.1.first_name || ilikeContains term p.1.last_name
    || ilikeContains term p.1.phone_number
    || (match p.2 with
        | none => false
        | some a =>
          ilikeContains term a.address_details || ilikeContains term a.city
            || ilikeContains term a.state || ilikeContains term a.pin_code)

/-- The effective search term of GET /api/customers and /count: the WHERE
condition is added only when searchTerm is present and its trim is nonempty,
and the pattern uses the trimmed term. -/
def effTerm (q : Option String) : Option String :=
  match q with
  | none => none
  | some s => if (strTrim s).isEmpty then none else some (strTrim s)

/-- Apply the optional search WHERE condition to join rows. -/
def searchFilter (term : Option String) (l : List (Customer × Option Address)) :
    List (Customer × Option Address) :=
  match term with
  | none => l
  | some t => l.filter (matchRow t)

/-- Insertion step of the ORDER BY key DESC model. -/
def insertIdDesc (key : α → Nat) (x : α) : List α → List α
  | [] => [x]
  | y :: ys => if key x ≤ key y then y :: insertIdDesc key x ys
               else x :: y :: ys

/-- ORDER BY key DESC as an insertion sort (stable, descending). -/
def sortByIdDesc (key : α → Nat) : List α → List α
  | [] => []
  | x :: xs => insertIdDesc key x (sortByIdDesc key xs)

/-- Output row of GET /api/customers after the JS shaping. -/
structure CustomerRow where
  id : Nat
  first_name : String
  last_name : String
  phone_number : String
  address_count : Nat
  addresses : List Address
deriving Repr, DecidableEq

/-- The join rows of one customer that survive the WHERE condition; the
GROUP BY c.id group for that customer. -/
def survFor (st : Store) (term : Option String) (c : Customer) :
    List (Customer × Option Address) :=
  searchFilter term (rowsFor st c)

/-- COUNT(a.id) over a group: non-NULL address values among its rows. -/
def groupAddrCount (st : Store) (term : Option String) (c : Customer) : Nat :=
  (survFor st term c).countP (fun p => p.2.isSome)

/-- The HAVING clause chosen from the addressCount query parameter. -/
def havingOk (addressCount : Option String) (cnt : Nat) : Bool :=
  if addressCount == some "single" then cnt == 1
  else if addressCount == some "multiple" then decide (1 < cnt)
  else true

/-- A customer produces an output row iff its group is nonempty (it has a
surviving join row) and the HAVING clause accepts COUNT(a.id). -/
def includedInList (st : Store) (term addressCount : Option String)
    (c : Customer) : Bool :=
  !(survFor st term c).isEmpty
    && havingOk addressCount (groupAddrCount st term c)

/-- One output row: json_agg over the group with CASE WHEN a.id IS NOT NULL
gives a json value per row (null for the all-NULL row), and the JS map
filters the nulls out. -/
def mkRow (st : Store) (term : Option String) (c : Customer) : CustomerRow :=
  ⟨c.id, c.first_name, c.last_name, c.phone_number,
   groupAddrCount st term c,
   (((survFor st term c).map (fun p => p.2)).filter
       (fun o => !o.isNone)).filterMap id⟩

/-- GET /api/customers: grouped LEFT JOIN with optional search WHERE and
addressCount HAVING, ordered by c.id DESC, shaped by the JS row map. -/
def listCustomers (st : Store) (qTerm addressCount : Option String) :
    List CustomerRow :=
  let term := effTerm qTerm
  (sortByIdDesc (fun c : Customer => c.id) st.customers).filterMap
    (fun c => if includedInList st term addressCount c
              then some (mkRow st term c) else none)

/-- JS truthiness of the addressCount query parameter. -/
def truthyOptStr : Option String → Bool
  | none => false
  | some s => !s.isEmpty

/-- GET /api/customers/count: COUNT(*) over a subquery of c.id values.  The
subquery repeats the join and search WHERE; for addressCount single/multiple
the condition string appends "a.id IS NOT NULL GROUP BY c.id HAVING
COUNT(a.id) =/ > 1", a GROUP BY c.id is appended only when addressCount is
falsy, and any other truthy addressCount leaves the join rows ungrouped. -/
def countCustomers (st : Store) (qTerm addressCount : Option String) : Nat :=
  let term := effTerm qTerm
  let searched := searchFilter term (joinRows st)
  if addressCount == some "single" then
    let rows2 := searched.filter (fun p => p.2.isSome)
    (((rows2.map (fun p => p.1.id)).dedup).filter
      (fun i => rows2.countP (fun p => p.1.id == i) == 1)).length
  else if addressCount == some "multiple" then
    let rows2 := searched.filter (fun p => p.2.isSome)
    (((rows2.map (fun p => p.1.id)).dedup).filter
      (fun i => decide (1 < rows2.countP (fun p => p.1.id == i)))).length
  else if truthyOptStr addressCount then
    searched.length
  else
    ((searched.map (fun p => p.1.id)).dedup).length

/-- SQL-level row of GET /api/customers/search: the correlated json_agg
subquery is NULL when the customer has no addresses. -/
structure SearchSqlRow where
  customer : Customer
  addressesJson : Option (List Address)
deriving Repr, DecidableEq

/-- Output row of GET /api/customers/search after the JS null-to-[] map. -/
structure SearchRow where
  customer : Customer
  addresses : List Address
deriving Repr, DecidableEq

/-- The correlated subquery json_agg(row_to_json(a)) for one customer. -/
def aggAddrs (st : Store) (c : Customer) : Option (List Address) :=
  let as1 := addrsOf st c.id
  if as1.isEmpty then none else some as1

/-- Whether a customer matches the search endpoint for raw term t: with a
blank (trim-empty) term every customer is selected, otherwise the customer
must own a join row matching the OR condition (pattern uses the raw term). -/
def searchSelects (st : Store) (t : String) (c : Customer) : Bool :=
  if (strTrim t).isEmpty then true else (rowsFor st c).any (matchRow t)

/-- GET /api/customers/search at the SQL level: blank term returns every
customer; otherwise SELECT DISTINCT over the join keeps each distinct
customer row with at least one matching join row.  Both branches order by
c.id DESC and attach the correlated json_agg subquery. -/
def searchSqlRows (st : Store) (t : String) : List SearchSqlRow :=
  if (strTrim t).isEmpty then
    (sortByIdDesc (fun c : Customer => c.id) st.customers).map
      (fun c => ⟨c, aggAddrs st c⟩)
  else
    (sortByIdDesc (fun c : Customer => c.id)
        ((((joinRows st).filter (matchRow t)).map (fun p => p.1)).dedup)).map
      (fun c => ⟨c, aggAddrs st c⟩)

/-- GET /api/customers/search: req.query.q defaults to the empty string,
and the JS row map replaces a null addresses value with []. -/
def searchCustomers (st : Store) (q : Option String) : List SearchRow :=
  (searchSqlRows st (q.getD "")).map
    (fun r => ⟨r.customer, r.addressesJson.getD []⟩)

/-- Connection-lifecycle events of a transactional handler. -/
inductive DbEvent where
  | acquire
  | beginTx
  | runQuery
  | commitTx
  | rollbackTx
  | release
deriving Repr, DecidableEq

/-- Connection events of the POST /api/customers handler body after
validation has passed (validation failures return before db.getClient()).
dup: the duplicate check finds a row; fCheck/fInsC/fInsA/fCommit: the
corresponding query throws, reaching the catch (ROLLBACK) and then the
finally (release).  Control statements BEGIN and ROLLBACK are assumed not
to throw. -/
def createCustomerTrace (dup fCheck fInsC fInsA fCommit : Bool) :
    List DbEvent :=
  DbEvent.acquire :: DbEvent.beginTx ::
  (if fCheck then [DbEvent.runQuery, DbEvent.rollbackTx, DbEvent.release]
   else DbEvent.runQuery ::
    (if dup then [DbEvent.rollbackTx, DbEvent.release]
     else if fInsC then [DbEvent.runQuery, DbEvent.rollbackTx, DbEvent.release]
     else DbEvent.runQuery ::
      (if fInsA then [DbEvent.runQuery, DbEvent.rollbackTx, DbEvent.release]
       else DbEvent.runQuery ::
        (if fCommit then [DbEvent.commitTx, DbEvent.rollbackTx, DbEvent.release]
         else [DbEvent.commitTx, DbEvent.release]))))

/-- Connection events of the PUT /api/customers/:id handler body after
validation has passed.  found: the UPDATE affects a row; withAddr: the
address payload is complete; fUpd/fInsA/fCommit: that query throws. -/
def updateCustomerTrace (found withAddr fUpd fInsA fCommit : Bool) :
    List DbEvent :=
  DbEvent.acquire :: DbEvent.beginTx ::
  (if fUpd then [DbEvent.runQuery, DbEvent.rollbackTx, DbEvent.release]
   else DbEvent.runQuery ::
    (if !found then [DbEvent.rollbackTx, DbEvent.release]
     else
      (if withAddr then
        (if fInsA then [DbEvent.runQuery, DbEvent.rollbackTx, DbEvent.release]
         else DbEvent.runQuery ::
          (if fCommit then
            [DbEvent.commitTx, DbEvent.rollbackTx, DbEvent.release]
           else [DbEvent.commitTx, DbEvent.release]))
       else
        (if fCommit then
          [DbEvent.commitTx, DbEvent.rollbackTx, DbEvent.release]
         else [DbEvent.commitTx, DbEvent.release]))))

/-- Connection events of the DELETE /api/customers/:id handler body.
found: the customer DELETE affects a row; fDelA/fDelC/fCommit: that query
throws. -/
def deleteCustomerTrace (found fDelA fDelC fCommit : Bool) : List DbEvent :=
  DbEvent.acquire :: DbEvent.beginTx ::
  (if fDelA then [DbEvent.runQuery, DbEvent.rollbackTx, DbEvent.release]
   else DbEvent.runQuery ::
    (if fDelC then [DbEvent.runQuery, DbEvent.rollbackTx, DbEvent.release]
     else DbEvent.runQuery ::
      (if !found then [DbEvent.rollbackTx, DbEvent.release]
       else
        (if fCommit then
          [DbEvent.commitTx, DbEvent.rollbackTx, DbEvent.release]
         else [DbEvent.commitTx, DbEvent.release]))))

/-! Helper lemmas about the query models. -/

theorem rowsFor_ne_nil (st : Store) (c : Customer) : rowsFor st c ≠ [] := by
  unfold rowsFor
  by_cases h : (addrsOf st c.id).isEmpty
  · simp [h]
  · simp only [h]
    simp only [Bool.false_eq_true, if_false, ne_eq, List.map_eq_nil_iff]
    intro hmap
    rw [hmap] at h
    simp at h

theorem fst_of_mem_rowsFor {st : Store} {c : Customer}
    {p : Customer × Option Address} (hp : p ∈ rowsFor st c) : p.1 = c := by
  unfold rowsFor at hp
  by_cases h : (addrsOf st c.id).isEmpty
  · simp [h] at hp
    rw [hp]
  · simp only [h, Bool.false_eq_true, if_false, List.mem_map] at hp
    obtain ⟨a, _, ha⟩ := hp
    rw [← ha]

theorem fst_of_mem_survFor {st : Store} {term : Option String} {c : Customer}
    {p : Customer × Option Address} (hp : p ∈ survFor st term c) : p.1 = c := by
  unfold survFor searchFilter at hp
  match term with
  | none => exact fst_of_mem_rowsFor hp
  | some t => exact fst_of_mem_rowsFor (List.mem_of_mem_filter hp)

theorem filter_flatMap_comm (l : List α) (g : α → List β) (p : β → Bool) :
    (l.flatMap g).filter p = l.flatMap (fun a => (g a).filter p) := by
  induction l with
  | nil => rfl
  | cons x xs ih => simp [List.flatMap_cons, List.filter_append, ih]

theorem searchFilter_flatMap (term : Option String) (l : List Customer)
    (f : Customer → List (Customer × Option Address)) :
    searchFilter term (l.flatMap f)
      = l.flatMap (fun c => searchFilter term (f c)) := by
  unfold searchFilter
  match term with
  | none => rfl
  | some t => exact filter_flatMap_comm l f (matchRow t)

theorem searched_eq_flatMap_surv (st : Store) (term : Option String) :
    searchFilter term (joinRows st)
      = st.customers.flatMap (fun c => survFor st term c) := by
  unfold joinRows survFor
  exact searchFilter_flatMap term st.customers (rowsFor st)

/-! Lemmas about the descending insertion sort. -/

theorem insertIdDesc_perm (key : α → Nat) (x : α) (l : List α) :
    List.Perm (insertIdDesc key x l) (x :: l) := by
  induction l with
  | nil => exact List.Perm.refl _
  | cons y ys ih =>
    unfold insertIdDesc
    by_cases h : key x ≤ key y
    · simp only [h, if_true]
      exact ((ih.cons y).trans (List.Perm.swap x y ys))
    · simp [h]

theorem sortByIdDesc_perm (key : α → Nat) (l : List α) :
    List.Perm (sortByIdDesc key l) l := by
  induction l with
  | nil => exact List.Perm.refl _
  | cons x xs ih =>
    unfold sortByIdDesc
    exact (insertIdDesc_perm key x (sortByIdDesc key xs)).trans (ih.cons x)

theorem sortByIdDesc_countP (key : α → Nat) (p : α → Bool) (l : List α) :
    (sortByIdDesc key l).countP p = l.countP p :=
  (sortByIdDesc_perm key l).countP_eq p

theorem mem_sortByIdDesc {key : α → Nat} {l : List α} {a : α} :
    a ∈ sortByIdDesc key l ↔ a ∈ l :=
  (sortByIdDesc_perm key l).mem_iff

theorem insertIdDesc_sorted (key : α → Nat) (x : α) {l : List α}
    (hl : l.Pairwise (fun a b => key b ≤ key a)) :
    (insertIdDesc key x l).Pairwise (fun a b => key b ≤ key a) := by
  induction l with
  | nil => simp [insertIdDesc]
  | cons y ys ih =>
    unfold insertIdDesc
    have hy : ∀ b ∈ ys, key b ≤ key y :=
      fun b hb => List.rel_of_pairwise_cons hl hb
    have hys := hl.of_cons
    by_cases h : key x ≤ key y
    · simp only [h, if_true]
      apply List.Pairwise.cons _ (ih hys)
      intro b hb
      have hb' := (insertIdDesc_perm key x ys).mem_iff.mp hb
      rcases List.mem_cons.mp hb' with hb2 | hb2
      · rw [hb2]; exact h
      · exact hy b hb2
    · simp only [h, if_false]
      apply List.Pairwise.cons _ hl
      intro b hb
      rcases List.mem_cons.mp hb with hb2 | hb2
      · rw [hb2]; omega
      · have := hy b hb2; omega

theorem sortByIdDesc_sorted (key : α → Nat) (l : List α) :
    (sortByIdDesc key l).Pairwise (fun a b => key b ≤ key a) := by
  induction l with
  | nil => simp [sortByIdDesc]
  | cons x xs ih => exact insertIdDesc_sorted key x ih

/-! Counting output rows of the shaped list. -/

theorem length_filterMap_if (l : List α) (p : α → Bool) (f : α → β) :
    (l.filterMap (fun a => if p a then some (f a) else none)).length
      = l.countP p := by
  induction l with
  | nil => rfl
  | cons x xs ih =>
    by_cases h : p x
    · simp [List.filterMap_cons, h, List.countP_cons, ih]
    · simp [List.filterMap_cons, h, List.countP_cons, ih]

theorem mem_filterMap_if {l : List α} {p : α → Bool} {f : α → β} {b : β} :
    b ∈ l.filterMap (fun a => if p a then some (f a) else none)
      ↔ ∃ a ∈ l, p a ∧ f a = b := by
  simp only [List.mem_filterMap]
  constructor
  · rintro ⟨a, ha, hb⟩
    by_cases h : p a
    · simp only [h, if_true, Option.some.injEq] at hb
      exact ⟨a, ha, h, hb⟩
    · simp [h] at hb
  · rintro ⟨a, ha, hpa, hb⟩
    exact ⟨a, ha, by simp [hpa, hb]⟩

theorem length_listCustomers (st : Store) (qTerm addressCount : Option String) :
    (listCustomers st qTerm addressCount).length
      = st.customers.countP
          (includedInList st (effTerm qTerm) addressCount) := by
  unfold listCustomers
  rw [length_filterMap_if, sortByIdDesc_countP]

/-! The GROUP BY c.id reasoning shared by the count/list equivalence. -/

theorem dedup_replicate_append [DecidableEq α] {x : α} {L : List α} {k : Nat}
    (hk : 0 < k) (hx : x ∉ L) :
    (List.replicate k x ++ L).dedup = x :: L.dedup := by
  induction k with
  | zero => omega
  | succ n ih =>
    by_cases hn : 0 < n
    · have hmem : x ∈ List.replicate n x ++ L :=
        List.mem_append.mpr (Or.inl (List.mem_replicate.mpr ⟨by omega, rfl⟩))
      rw [List.replicate_succ, List.cons_append, List.dedup_cons_of_mem hmem,
        ih hn]
    · have hn0 : n = 0 := by omega
      subst hn0
      simp only [List.replicate_succ, List.replicate_zero, List.nil_append,
        List.cons_append]
      rw [List.dedup_cons_of_not_mem hx]

/-- COUNT(*) over the id-grouped subquery rows with a HAVING condition q on
the group size equals, per source customer, a count of the customers whose
row set is nonempty and accepted by q — provided every row of a customer
carries that customer's id and customer ids are unique. -/
theorem grouped_count (cs : List Customer) (f : Customer → List γ)
    (key : γ → Nat) (q : Nat → Bool)
    (hf : ∀ c ∈ cs, ∀ p ∈ f c, key p = c.id)
    (hnd : (cs.map (fun c => c.id)).Nodup) :
    (((cs.flatMap f).map key).dedup.filter
        (fun i => q ((cs.flatMap f).countP (fun p => key p == i)))).length
      = cs.countP (fun d => !(f d).isEmpty && q (f d).length) := by
  induction cs with
  | nil => rfl
  | cons c cs ih =>
    have hfc : ∀ p ∈ f c, key p = c.id := hf c (List.mem_cons_self c cs)
    have hfcs : ∀ c' ∈ cs, ∀ p ∈ f c', key p = c'.id :=
      fun c' hc' => hf c' (List.mem_cons_of_mem c hc')
    have hnd' : (cs.map (fun d => d.id)).Nodup := (List.nodup_cons.mp hnd).2
    have hcid : c.id ∉ cs.map (fun d => d.id) := (List.nodup_cons.mp hnd).1
    have hsub : ∀ i ∈ (cs.flatMap f).map key, i ∈ cs.map (fun d => d.id) := by
      intro i hi
      obtain ⟨p, hp, hkey⟩ := List.mem_map.mp hi
      obtain ⟨c', hc', hpc'⟩ := List.mem_flatMap.mp hp
      subst hkey
      rw [hfcs c' hc' p hpc']
      exact List.mem_map.mpr ⟨c', hc', rfl⟩
    have hknotin : c.id ∉ (cs.flatMap f).map key := fun h => hcid (hsub _ h)
    have hcnt0 : (cs.flatMap f).countP (fun p => key p == c.id) = 0 := by
      rw [List.countP_eq_zero]
      intro p hp
      obtain ⟨c', hc', hpc'⟩ := List.mem_flatMap.mp hp
      simp only [hfcs c' hc' p hpc', beq_iff_eq]
      intro heq
      exact hcid (heq ▸ List.mem_map.mpr ⟨c', hc', rfl⟩)
    have hcntc : (f c).countP (fun p => key p == c.id) = (f c).length := by
      rw [List.countP_eq_length]
      intro p hp
      simp [hfc p hp]
    by_cases h0 : f c = []
    · rw [List.flatMap_cons, h0, List.nil_append, ih hfcs hnd',
        List.countP_cons]
      simp [h0]
    · have hk : 0 < (f c).length := List.length_pos.mpr h0
      have hmapfc : (f c).map key = List.replicate (f c).length c.id := by
        apply List.eq_replicate_iff.mpr
        refine ⟨by simp, ?_⟩
        intro b hb
        obtain ⟨p, hp, hkey⟩ := List.mem_map.mp hb
        rw [← hkey, hfc p hp]
      rw [List.flatMap_cons, List.map_append, hmapfc,
        dedup_replicate_append hk hknotin, List.filter_cons]
      have hPc : (f c ++ cs.flatMap f).countP (fun p => key p == c.id)
          = (f c).length := by
        rw [List.countP_append, hcntc, hcnt0]
        omega
      rw [hPc]
      have hee : (f c).isEmpty = false := by
        cases hfc2 : f c with
        | nil => exact absurd hfc2 h0
        | cons z zs => rfl
      have hcong : ∀ i ∈ ((cs.flatMap f).map key).dedup,
          (q ((f c ++ cs.flatMap f).countP (fun p => key p == i)))
            = (q ((cs.flatMap f).countP (fun p => key p == i))) := by
        intro i hi
        have hiin : i ∈ (cs.flatMap f).map key := List.mem_dedup.mp hi
        have hne : ¬(i = c.id) := fun heq => hknotin (heq ▸ hiin)
        have hfc0 : (f c).countP (fun p => key p == i) = 0 := by
          rw [List.countP_eq_zero]
          intro p hp
          simp only [hfc p hp, beq_iff_eq]
          intro heq
          exact hne heq.symm
        rw [List.countP_append, hfc0, Nat.zero_add]
      rw [List.filter_congr hcong, List.countP_cons]
      by_cases hq : q (f c).length = true
      · rw [if_pos hq, List.length_cons, ih hfcs hnd', hee, hq]
        simp
      · have hq2 : q (f c).length = false := by
          cases hqq : q (f c).length
          · rfl
          · exact absurd hqq hq
        rw [if_neg hq, ih hfcs hnd', hee, hq2]
        simp

theorem countP_congr_bool (l : List α) {p q : α → Bool}
    (h : ∀ a ∈ l, p a = q a) : l.countP p = l.countP q := by
  rw [List.countP_eq_length_filter, List.countP_eq_length_filter,
    List.filter_congr h]

/-- A group is accepted only when its address rows are nonempty, provided
the HAVING condition rejects 0; then testing emptiness of all group rows or
of the non-NULL ones is the same. -/
theorem included_eq_aux (l : List γ) (p : γ → Bool) (q : Nat → Bool)
    (hq : q 0 = false) :
    (!(l.isEmpty) && q ((l.filter p).length))
      = (!((l.filter p).isEmpty) && q ((l.filter p).length)) := by
  by_cases h : q ((l.filter p).length) = true
  · have hne : (l.filter p).length ≠ 0 := by
      intro h0
      rw [h0, hq] at h
      exact Bool.false_ne_true h
    have h1 : (l.filter p).isEmpty = false := by
      cases hf : l.filter p with
      | nil => rw [hf] at hne; simp at hne
      | cons z zs => rfl
    have h2 : l.isEmpty = false := by
      cases hl : l with
      | nil => rw [hl] at hne; simp at hne
      | cons z zs => rfl
    rw [h, h1, h2]
  · have h' : q ((l.filter p).length) = false := by
      cases hqq : q ((l.filter p).length)
      · rfl
      · exact absurd hqq h
    rw [h']
    simp

theorem countCustomers_single_eq (st : Store) (q : Option String) :
    countCustomers st q (some "single")
      = (((((searchFilter (effTerm q) (joinRows st)).filter
              (fun p => p.2.isSome)).map (fun p => p.1.id)).dedup).filter
          (fun i => ((searchFilter (effTerm q) (joinRows st)).filter
              (fun p => p.2.isSome)).countP (fun p => p.1.id == i) == 1)).length
    := rfl

theorem countCustomers_multiple_eq (st : Store) (q : Option String) :
    countCustomers st q (some "multiple")
      = (((((searchFilter (effTerm q) (joinRows st)).filter
              (fun p => p.2.isSome)).map (fun p => p.1.id)).dedup).filter
          (fun i => decide (1 < ((searchFilter (effTerm q) (joinRows st)).filter
              (fun p => p.2.isSome)).countP (fun p => p.1.id == i)))).length
    := rfl

theorem countCustomers_none_eq (st : Store) (q : Option String) :
    countCustomers st q none
      = (((searchFilter (effTerm q) (joinRows st)).map
            (fun p => p.1.id)).dedup).length := rfl

theorem countCustomers_blank_eq (st : Store) (q : Option String) :
    countCustomers st q (some "")
      = (((searchFilter (effTerm q) (joinRows st)).map
            (fun p => p.1.id)).dedup).length := rfl

theorem count_eq_list_single (st : Store) (q : Option String)
    (hnd : (st.customers.map (fun c => c.id)).Nodup) :
    countCustomers st q (some "single")
      = (listCustomers st q (some "single")).length := by
  have hrows : (searchFilter (effTerm q) (joinRows st)).filter
        (fun p => p.2.isSome)
      = st.customers.flatMap
          (fun c => (survFor st (effTerm q) c).filter (fun p => p.2.isSome))
      := by
    rw [searched_eq_flatMap_surv, filter_flatMap_comm]
  have hmain := grouped_count st.customers
      (fun c => (survFor st (effTerm q) c).filter (fun p => p.2.isSome))
      (fun p => p.1.id) (fun n => n == 1)
      (fun c _ p hp => by
        show p.1.id = c.id
        rw [fst_of_mem_survFor (List.mem_of_mem_filter hp)]) hnd
  rw [countCustomers_single_eq, length_listCustomers, hrows, hmain]
  apply countP_congr_bool
  intro c _
  simp only [includedInList, havingOk, groupAddrCount,
    List.countP_eq_length_filter]
  have := (included_eq_aux (survFor st (effTerm q) c)
      (fun p => p.2.isSome) (fun n => n == 1) rfl).symm
  simpa using this

theorem count_eq_list_multiple (st : Store) (q : Option String)
    (hnd : (st.customers.map (fun c => c.id)).Nodup) :
    countCustomers st q (some "multiple")
      = (listCustomers st q (some "multiple")).length := by
  have hrows : (searchFilter (effTerm q) (joinRows st)).filter
        (fun p => p.2.isSome)
      = st.customers.flatMap
          (fun c => (survFor st (effTerm q) c).filter (fun p => p.2.isSome))
      := by
    rw [searched_eq_flatMap_surv, filter_flatMap_comm]
  have hmain := grouped_count st.customers
      (fun c => (survFor st (effTerm q) c).filter (fun p => p.2.isSome))
      (fun p => p.1.id) (fun n => decide (1 < n))
      (fun c _ p hp => by
        show p.1.id = c.id
        rw [fst_of_mem_survFor (List.mem_of_mem_filter hp)]) hnd
  rw [countCustomers_multiple_eq, length_listCustomers, hrows, hmain]
  apply countP_congr_bool
  intro c _
  simp only [includedInList, havingOk, groupAddrCount,
    List.countP_eq_length_filter]
  have := (included_eq_aux (survFor st (effTerm q) c)
      (fun p => p.2.isSome) (fun n => decide (1 < n)) rfl).symm
  simpa using this

theorem count_eq_list_ungrouped (st : Store) (q : Option String)
    (hnd : (st.customers.map (fun c => c.id)).Nodup) :
    (((searchFilter (effTerm q) (joinRows st)).map
          (fun p => p.1.id)).dedup).length
      = st.customers.countP (includedInList st (effTerm q) none) := by
  have hmain := grouped_count st.customers
      (fun c => survFor st (effTerm q) c)
      (fun p => p.1.id) (fun _ => true)
      (fun c _ p hp => by
        show p.1.id = c.id
        rw [fst_of_mem_survFor hp]) hnd
  rw [searched_eq_flatMap_surv]
  rw [List.filter_true] at hmain
  rw [hmain]
  apply countP_congr_bool
  intro c _
  simp [includedInList, havingOk]

/-! Semantics of the list endpoint without a search term, and shaping. -/

theorem rowsFor_nil {st : Store} {c : Customer} (h : addrsOf st c.id = []) :
    rowsFor st c = [(c, none)] := by
  unfold rowsFor
  rw [h]
  rfl

theorem rowsFor_eq_map {st : Store} {c : Customer}
    (h : (addrsOf st c.id).isEmpty = false) :
    rowsFor st c = (addrsOf st c.id).map (fun a => (c, some a)) := by
  simp only [rowsFor, h, Bool.false_eq_true, if_false]

theorem groupAddrCount_none (st : Store) (c : Customer) :
    groupAddrCount st none c = (addrsOf st c.id).length := by
  show (rowsFor st c).countP (fun p => p.2.isSome) = (addrsOf st c.id).length
  by_cases h : (addrsOf st c.id).isEmpty = true
  · have h0 : addrsOf st c.id = [] := by
      cases hl : addrsOf st c.id with
      | nil => rfl
      | cons z zs => rw [hl] at h; simp at h
    rw [rowsFor_nil h0, h0]
    rfl
  · have h' : (addrsOf st c.id).isEmpty = false := by
      cases hb : (addrsOf st c.id).isEmpty
      · rfl
      · exact absurd hb h
    rw [rowsFor_eq_map h', List.countP_map]
    have hall : ∀ a ∈ addrsOf st c.id,
        ((fun p : Customer × Option Address => p.2.isSome)
          ∘ (fun a => (c, some a))) a = true := by
      intro a _
      rfl
    rw [List.countP_eq_length.mpr hall]

theorem surv_none_isEmpty_false (st : Store) (c : Customer) :
    (survFor st none c).isEmpty = false := by
  show (rowsFor st c).isEmpty = false
  cases hl : rowsFor st c with
  | nil => exact absurd hl (rowsFor_ne_nil st c)
  | cons z zs => rfl

theorem includedInList_none (st : Store) (ac : Option String) (c : Customer) :
    includedInList st none ac c = havingOk ac ((addrsOf st c.id).length) := by
  unfold includedInList
  rw [surv_none_isEmpty_false, groupAddrCount_none]
  simp

theorem mem_listCustomers_iff {st : Store} {qTerm ac : Option String}
    {row : CustomerRow} :
    row ∈ listCustomers st qTerm ac
      ↔ ∃ c, c ∈ st.customers
          ∧ includedInList st (effTerm qTerm) ac c = true
          ∧ mkRow st (effTerm qTerm) c = row := by
  unfold listCustomers
  constructor
  · intro h
    obtain ⟨c, hc, hp, hf⟩ := mem_filterMap_if.mp h
    exact ⟨c, mem_sortByIdDesc.mp hc, hp, hf⟩
  · rintro ⟨c, hc, hp, hf⟩
    exact mem_filterMap_if.mpr ⟨c, mem_sortByIdDesc.mpr hc, hp, hf⟩

theorem mkRow_id (st : Store) (term : Option String) (c : Customer) :
    (mkRow st term c).id = c.id := rfl

theorem mkRow_address_count (st : Store) (term : Option String)
    (c : Customer) :
    (mkRow st term c).address_count = groupAddrCount st term c := rfl

theorem mem_survFor_of_addrsOf_nil {st : Store} {term : Option String}
    {c : Customer} (h : addrsOf st c.id = [])
    {p : Customer × Option Address} (hp : p ∈ survFor st term c) :
    p.2 = none := by
  have hr : p ∈ rowsFor st c := by
    unfold survFor searchFilter at hp
    match term with
    | none => exact hp
    | some t => exact List.mem_of_mem_filter hp
  unfold rowsFor at hr
  rw [h] at hr
  simp only [List.isEmpty_nil, if_true, List.mem_singleton] at hr
  rw [hr]

theorem mkRow_addresses_nil {st : Store} {term : Option String} {c : Customer}
    (h : addrsOf st c.id = []) : (mkRow st term c).addresses = [] := by
  show (((survFor st term c).map (fun p => p.2)).filter
      (fun o => !o.isNone)).filterMap id = []
  have hnil : ((survFor st term c).map (fun p => p.2)).filter
      (fun o => !o.isNone) = [] := by
    rw [List.filter_eq_nil_iff]
    intro o ho
    obtain ⟨p, hp, hpo⟩ := List.mem_map.mp ho
    rw [← hpo, mem_survFor_of_addrsOf_nil h hp]
    simp
  rw [hnil]
  rfl

theorem filterMap_if_eq_map_filter (l : List α) (p : α → Bool) (f : α → β) :
    l.filterMap (fun a => if p a then some (f a) else none)
      = (l.filter p).map f := by
  induction l with
  | nil => rfl
  | cons x xs ih =>
    by_cases h : p x
    · simp [List.filterMap_cons, List.filter_cons, h, ih]
    · simp [List.filterMap_cons, List.filter_cons, h, ih]

theorem pairwise_gt_of_sorted_nodup {l : List α} {key : α → Nat}
    (hs : l.Pairwise (fun a b => key b ≤ key a))
    (hn : (l.map key).Nodup) :
    l.Pairwise (fun a b => key b < key a) := by
  have hne : l.Pairwise (fun a b => key a ≠ key b) := List.pairwise_map.mp hn
  exact (hs.and hne).imp (fun h => by omega)

/-! Lemmas about the search endpoint model. -/

theorem aggAddrs_getD (st : Store) (c : Customer) :
    (aggAddrs st c).getD [] = addrsOf st c.id := by
  by_cases h : (addrsOf st c.id).isEmpty = true
  · have h0 : addrsOf st c.id = [] := by
      cases hl : addrsOf st c.id with
      | nil => rfl
      | cons z zs => rw [hl] at h; simp at h
    simp [aggAddrs, h0]
  · have h' : (addrsOf st c.id).isEmpty = false := by
      cases hb : (addrsOf st c.id).isEmpty
      · rfl
      · exact absurd hb h
    simp [aggAddrs, h']

theorem mem_matchedCustomers {st : Store} {t : String} {c : Customer} :
    c ∈ ((((joinRows st).filter (matchRow t)).map (fun p => p.1)).dedup)
      ↔ c ∈ st.customers ∧ (rowsFor st c).any (matchRow t) = true := by
  rw [List.mem_dedup]
  constructor
  · intro h
    obtain ⟨p, hp, hpc⟩ := List.mem_map.mp h
    have hpj : p ∈ joinRows st := List.mem_of_mem_filter hp
    have hpm : matchRow t p = true := List.of_mem_filter hp
    obtain ⟨c2, hc2, hpr⟩ := List.mem_flatMap.mp hpj
    have hfst : p.1 = c2 := fst_of_mem_rowsFor hpr
    rw [← hpc, hfst]
    refine ⟨hc2, ?_⟩
    exact List.any_eq_true.mpr ⟨p, hpr, hpm⟩
  · rintro ⟨hc, hany⟩
    obtain ⟨p, hp, hpm⟩ := List.any_eq_true.mp hany
    refine List.mem_map.mpr ⟨p, ?_, fst_of_mem_rowsFor hp⟩
    exact List.mem_filter.mpr ⟨List.mem_flatMap.mpr ⟨c, hc, hp⟩, hpm⟩

/-- The base customer list selected by the search endpoint before ordering. -/
def searchBase (st : Store) (t : String) : List Customer :=
  if (strTrim t).isEmpty then st.customers
  else (((joinRows st).filter (matchRow t)).map (fun p => p.1)).dedup

theorem searchCustomers_eq (st : Store) (q : Option String) :
    searchCustomers st q
      = (sortByIdDesc (fun c : Customer => c.id)
            (searchBase st (q.getD ""))).map
          (fun c => ⟨c, (aggAddrs st c).getD []⟩) := by
  unfold searchCustomers searchSqlRows searchBase
  by_cases h : (strTrim (q.getD "")).isEmpty = true
  · rw [if_pos h, if_pos h, List.map_map]
    rfl
  · rw [if_neg h, if_neg h, List.map_map]
    rfl

theorem mem_searchBase {st : Store} {t : String} {c : Customer} :
    c ∈ searchBase st t ↔ c ∈ st.customers ∧ searchSelects st t c = true := by
  unfold searchBase searchSelects
  by_cases h : (strTrim t).isEmpty = true
  · rw [if_pos h, if_pos h]
    simp
  · rw [if_neg h, if_neg h]
    exact mem_matchedCustomers

theorem searchBase_subset {st : Store} {t : String} {c : Customer}
    (h : c ∈ searchBase st t) : c ∈ st.customers :=
  (mem_searchBase.mp h).1

theorem searchBase_nodup_ids {st : Store} {t : String}
    (hnd : (st.customers.map (fun c => c.id)).Nodup) :
    ((searchBase st t).map (fun c => c.id)).Nodup := by
  unfold searchBase
  by_cases h : (strTrim t).isEmpty = true
  · rw [if_pos h]
    exact hnd
  · rw [if_neg h]
    have hinj := List.inj_on_of_nodup_map hnd
    refine List.Nodup.map_on ?_ (List.nodup_dedup _)
    intro x hx y hy hxy
    have hx' : x ∈ st.customers := by
      have := (mem_matchedCustomers (t := t)).mp hx
      exact this.1
    have hy' : y ∈ st.customers := by
      have := (mem_matchedCustomers (t := t)).mp hy
      exact this.1
    exact hinj hx' hy' hxy

theorem countP_key_eq_one (key : α → Nat) {l : List α} {a : α}
    (hmem : a ∈ l) (hn : (l.map key).Nodup) :
    l.countP (fun b => key b == key a) = 1 := by
  have hpos : 0 < (l.map key).count (key a) :=
    List.count_pos_iff.mpr (List.mem_map.mpr ⟨a, hmem, rfl⟩)
  have hle : (l.map key).count (key a) ≤ 1 :=
    List.nodup_iff_count_le_one.mp hn (key a)
  have h1 : (l.map key).count (key a) = 1 := by omega
  calc l.countP (fun b => key b == key a)
      = (l.map key).countP (fun i => i == key a) := by
        have hm := List.countP_map (fun i => i == key a) key l
        exact hm.symm
    _ = (l.map key).count (key a) := rfl
    _ = 1 := h1

/-! Validation-path lemmas for the write handlers. -/

theorem createCustomer_400_unchanged (st : Store) (r : CustomerPayload)
    (h : (createCustomer st r).1.status = 400) :
    (createCustomer st r).2 = st := by
  unfold createCustomer at h ⊢
  by_cases h1 : (r.first_name.isEmpty || r.last_name.isEmpty
      || r.phone_number.isEmpty || r.address_details.isEmpty || r.city.isEmpty
      || r.state.isEmpty || r.pin_code.isEmpty) = true
  · simp [h1]
  · by_cases h2 : (!isDigitsLen 10 r.phone_number) = true
    · simp [h1, h2]
    · by_cases h3 : (!isDigitsLen 6 r.pin_code) = true
      · simp [h1, h2, h3]
      · by_cases h4 : (st.customers.any (fun c =>
            c.first_name == r.first_name && c.last_name == r.last_name
              && c.phone_number == r.phone_number)) = true
        · simp [h1, h2, h3, h4, respErr] at h
        · simp [h1, h2, h3, h4] at h

theorem updateCustomer_400_unchanged (st : Store) (cid : Nat)
    (r : CustomerPayload)
    (h : (updateCustomer st cid r).1.status = 400) :
    (updateCustomer st cid r).2 = st := by
  unfold updateCustomer at h ⊢
  by_cases h1 : (r.first_name.isEmpty || r.last_name.isEmpty
      || r.phone_number.isEmpty) = true
  · simp [h1]
  · by_cases h2 : (!isDigitsLen 10 r.phone_number) = true
    · simp [h1, h2]
    · by_cases h3 : (st.customers.countP (fun c => c.id == cid) == 0) = true
      · simp [h1, h2, h3, respErr] at h
      · simp [h1, h2, h3, respMsg] at h

theorem postAddresses_400_unchanged (st : Store) (r : PostAddressPayload)
    (h : (postAddresses st r).1.status = 400) :
    (postAddresses st r).2 = st := by
  unfold postAddresses at h ⊢
  by_cases h1 : (r.customer_id == 0 || r.address_details.isEmpty
      || r.city.isEmpty || r.state.isEmpty || r.pin_code.isEmpty) = true
  · simp [h1]
  · simp [h1] at h

theorem putAddress_400_unchanged (st : Store) (aid : Nat)
    (r : AddressFieldsPayload)
    (h : (putAddress st aid r).1.status = 400) :
    (putAddress st aid r).2 = st := by
  unfold putAddress at h ⊢
  by_cases h1 : (r.address_details.isEmpty || r.city.isEmpty
      || r.state.isEmpty || r.pin_code.isEmpty) = true
  · simp [h1]
  · by_cases h2 : (st.addresses.countP (fun a => a.id == aid) == 0) = true
    · simp [h1, h2, respErr] at h
    · simp [h1, h2, respMsg] at h

theorem postCustomerAddress_400_unchanged (st : Store) (cid : Nat)
    (r : AddressFieldsPayload)
    (h : (postCustomerAddress st cid r).1.status = 400) :
    (postCustomerAddress st cid r).2 = st := by
  unfold postCustomerAddress at h ⊢
  by_cases h1 : (r.address_details.isEmpty || r.city.isEmpty
      || r.state.isEmpty || r.pin_code.isEmpty) = true
  · simp [h1]
  · by_cases h2 : (!isDigitsLen 6 r.pin_code) = true
    · simp [h1, h2]
    · simp [h1, h2] at h

theorem createCustomer_bad_pin (st : Store) (r : CustomerPayload)
    (hp : isDigitsLen 6 r.pin_code = false) :
    (createCustomer st r).1.status = 400 ∧ (createCustomer st r).2 = st := by
  unfold createCustomer
  by_cases h1 : (r.first_name.isEmpty || r.last_name.isEmpty
      || r.phone_number.isEmpty || r.address_details.isEmpty || r.city.isEmpty
      || r.state.isEmpty || r.pin_code.isEmpty) = true
  · simp [h1, respErr]
  · by_cases h2 : (!isDigitsLen 10 r.phone_number) = true
    · simp [h1, h2, respErr]
    · simp [h1, h2, hp, respErr]

theorem postCustomerAddress_bad_pin (st : Store) (cid : Nat)
    (r : AddressFieldsPayload)
    (hp : isDigitsLen 6 r.pin_code = false) :
    (postCustomerAddress st cid r).1.status = 400
      ∧ (postCustomerAddress st cid r).2 = st := by
  unfold postCustomerAddress
  by_cases h1 : (r.address_details.isEmpty || r.city.isEmpty
      || r.state.isEmpty || r.pin_code.isEmpty) = true
  · simp [h1, respErr]
  · simp [h1, hp, respErr]

theorem countP_not_add (p : α → Bool) (l : List α) :
    l.countP p + l.countP (fun a => !p a) = l.length := by
  induction l with
  | nil => rfl
  | cons x xs ih =>
    cases h : p x
    · simp [List.countP_cons, h]
      omega
    · simp [List.countP_cons, h]
      omega

/-! Claim theorems. -/

/-- C1 counterexample: a create request whose (first_name, last_name,
phone_number) triple is identical to the existing row but whose pin_code is
not six digits is answered with 400, not with the 409 the claim requires:
field validation runs before the duplicate check. -/
theorem c1_duplicate_counterexample :
    ((⟨[⟨1, "A", "B", "1234567890"⟩], [], 2, 1⟩ : Store).customers.any
        (fun c => c.first_name == "A" && c.last_name == "B"
          && c.phone_number == "1234567890") = true)
    ∧ (createCustomer ⟨[⟨1, "A", "B", "1234567890"⟩], [], 2, 1⟩
        ⟨"A", "B", "1234567890", "X", "Y", "Z", "123"⟩).1.status = 400
    ∧ ¬((createCustomer ⟨[⟨1, "A", "B", "1234567890"⟩], [], 2, 1⟩
        ⟨"A", "B", "1234567890", "X", "Y", "Z", "123"⟩).1.status = 409) := by
  refine ⟨by decide, by decide, by decide⟩

/-- C1 (amended): a create-customer request that passes field validation and
whose (first_name, last_name, phone_number) triple matches an existing
customer row is answered with 409 and leaves the store unchanged. -/
theorem c1_duplicate_conflict (st : Store) (r : CustomerPayload)
    (h1 : r.first_name.isEmpty = false) (h2 : r.last_name.isEmpty = false)
    (h3 : r.phone_number.isEmpty = false)
    (h4 : r.address_details.isEmpty = false) (h5 : r.city.isEmpty = false)
    (h6 : r.state.isEmpty = false) (h7 : r.pin_code.isEmpty = false)
    (h8 : isDigitsLen 10 r.phone_number = true)
    (h9 : isDigitsLen 6 r.pin_code = true)
    (hd : st.customers.any (fun c =>
        c.first_name == r.first_name && c.last_name == r.last_name
          && c.phone_number == r.phone_number) = true) :
    createCustomer st r
      = (respErr 409 "Customer with this name and phone number already exists.",
         st) := by
  simp [createCustomer, h1, h2, h3, h4, h5, h6, h7, h8, h9, hd]

/-- C1 witness: the amended theorem applied at a concrete duplicate. -/
theorem c1_duplicate_conflict_witness :
    createCustomer ⟨[⟨1, "A", "B", "1234567890"⟩], [], 2, 1⟩
        ⟨"A", "B", "1234567890", "X", "Y", "Z", "123456"⟩
      = (respErr 409 "Customer with this name and phone number already exists.",
         ⟨[⟨1, "A", "B", "1234567890"⟩], [], 2, 1⟩) :=
  c1_duplicate_conflict _ _ (by decide) (by decide) (by decide) (by decide)
    (by decide) (by decide) (by decide) (by decide) (by decide) (by decide)

/-- C2: deleting a customer removes the customer row and every address row
with that customer_id in one step when the customer exists, and otherwise
rolls back to the untouched store and reports not-found. -/
theorem c2_delete_cascade_atomic (st : Store) (cid : Nat) :
    deleteCustomer st cid
      = if st.customers.any (fun c => c.id == cid) then
          (respMsg 200
            "Customer and all associated addresses deleted successfully.",
           ⟨st.customers.filter (fun c => !(c.id == cid)),
            st.addresses.filter (fun a => !(a.customer_id == cid)),
            st.nextCustomerId, st.nextAddressId⟩)
        else (respErr 404 "Customer not found.", st) := by
  have hsplit : st.customers.length
      = st.customers.countP (fun c => c.id == cid)
        + (st.customers.filter (fun c => !(c.id == cid))).length := by
    rw [← List.countP_eq_length_filter]
    exact (countP_not_add (fun c => c.id == cid) st.customers).symm
  by_cases h : st.customers.any (fun c => c.id == cid) = true
  · have hpos : 0 < st.customers.countP (fun c => c.id == cid) := by
      obtain ⟨c, hc, hpc⟩ := List.any_eq_true.mp h
      exact List.countP_pos_iff.mpr ⟨c, hc, hpc⟩
    have hrc : (st.customers.length
        - (st.customers.filter (fun c => !(c.id == cid))).length == 0)
        = false := by
      rw [beq_eq_false_iff_ne]
      omega
    simp only [deleteCustomer, hrc, Bool.false_eq_true, if_false, h, if_true]
  · have hfalse : st.customers.any (fun c => c.id == cid) = false := by
      cases hany : st.customers.any (fun c => c.id == cid)
      · rfl
      · exact absurd hany h
    have h0 : st.customers.countP (fun c => c.id == cid) = 0 := by
      rw [List.countP_eq_zero]
      intro c hc
      have := List.any_eq_false.mp hfalse c hc
      simpa using this
    have hrc : (st.customers.length
        - (st.customers.filter (fun c => !(c.id == cid))).length == 0)
        = true := by
      rw [beq_iff_eq]
      omega
    simp only [deleteCustomer, hrc, if_true, hfalse, Bool.false_eq_true,
      if_false]

/-- C3 counterexample: POST /api/addresses is an address-creation path, yet a
pin_code that does not match six digits is accepted: the request is answered
201 and the address row is inserted, refuting the claim that every create
path including an address rejects such a pin code with 400 and no mutation. -/
theorem c3_pin_validation_counterexample :
    isDigitsLen 6 "abc" = false
    ∧ (postAddresses ⟨[⟨1, "A", "B", "1234567890"⟩], [], 2, 1⟩
        ⟨1, "D", "C", "S", "abc"⟩).1.status = 201
    ∧ (postAddresses ⟨[⟨1, "A", "B", "1234567890"⟩], [], 2, 1⟩
        ⟨1, "D", "C", "S", "abc"⟩).2.addresses
        = [⟨1, 1, "D", "C", "S", "abc"⟩] := by
  refine ⟨by decide, by decide, by decide⟩

/-- C3 (amended): every write handler that validates returns 400 with the
store unchanged on any validation failure, and the six-digit pin_code rule
is enforced on POST /api/customers and POST /api/customers/:id/addresses —
but not on POST /api/addresses, which checks only field presence. -/
theorem c3_validation_before_store :
    (∀ st r, (createCustomer st r).1.status = 400
        → (createCustomer st r).2 = st)
    ∧ (∀ st cid r, (updateCustomer st cid r).1.status = 400
        → (updateCustomer st cid r).2 = st)
    ∧ (∀ st r, (postAddresses st r).1.status = 400
        → (postAddresses st r).2 = st)
    ∧ (∀ st aid r, (putAddress st aid r).1.status = 400
        → (putAddress st aid r).2 = st)
    ∧ (∀ st cid r, (postCustomerAddress st cid r).1.status = 400
        → (postCustomerAddress st cid r).2 = st)
    ∧ (∀ st r, isDigitsLen 6 r.pin_code = false
        → (createCustomer st r).1.status = 400 ∧ (createCustomer st r).2 = st)
    ∧ (∀ st cid (r : AddressFieldsPayload), isDigitsLen 6 r.pin_code = false
        → (postCustomerAddress st cid r).1.status = 400
          ∧ (postCustomerAddress st cid r).2 = st) :=
  ⟨createCustomer_400_unchanged, updateCustomer_400_unchanged,
   postAddresses_400_unchanged, putAddress_400_unchanged,
   postCustomerAddress_400_unchanged, createCustomer_bad_pin,
   postCustomerAddress_bad_pin⟩

/-- C3 witness: the amended theorem applied at concrete inputs: a create
payload with a five-digit pin is rejected with an unchanged store. -/
theorem c3_validation_before_store_witness :
    (createCustomer ⟨[], [], 1, 1⟩ ⟨"A", "B", "1234567890", "X", "Y", "Z",
        "12345"⟩).1.status = 400
    ∧ (createCustomer ⟨[], [], 1, 1⟩ ⟨"A", "B", "1234567890", "X", "Y", "Z",
        "12345"⟩).2 = ⟨[], [], 1, 1⟩ :=
  c3_validation_before_store.2.2.2.2.2.1 ⟨[], [], 1, 1⟩
    ⟨"A", "B", "1234567890", "X", "Y", "Z", "12345"⟩ (by decide)

/-- C6 counterexample: an update-customer request whose id matches no row but
whose phone_number fails validation is answered 400, not the 404 the claim
requires for every such request: validation runs before the UPDATE. -/
theorem c6_update_missing_counterexample :
    ((⟨[], [], 1, 1⟩ : Store).customers.any (fun c => c.id == 5) = false)
    ∧ (updateCustomer ⟨[], [], 1, 1⟩ 5
        ⟨"A", "B", "123", "X", "Y", "Z", "123456"⟩).1.status = 400
    ∧ ¬((updateCustomer ⟨[], [], 1, 1⟩ 5
        ⟨"A", "B", "123", "X", "Y", "Z", "123456"⟩).1.status = 404) := by
  refine ⟨by decide, by decide, by decide⟩

/-- C6 (amended): an update-customer request that passes name/phone
validation and whose id matches no customer row is answered 404 with the
store unchanged — in particular no address row is inserted even when a full
address payload was supplied. -/
theorem c6_update_not_found (st : Store) (cid : Nat) (r : CustomerPayload)
    (h1 : r.first_name.isEmpty = false) (h2 : r.last_name.isEmpty = false)
    (h3 : r.phone_number.isEmpty = false)
    (h8 : isDigitsLen 10 r.phone_number = true)
    (hnf : st.customers.countP (fun c => c.id == cid) = 0) :
    updateCustomer st cid r = (respErr 404 "Customer not found.", st) := by
  simp [updateCustomer, h1, h2, h3, h8, hnf]

/-- C6 witness: the amended theorem applied with a full address payload and
an id that matches nothing. -/
theorem c6_update_not_found_witness :
    updateCustomer ⟨[], [], 1, 1⟩ 5
        ⟨"A", "B", "1234567890", "X", "Y", "Z", "123456"⟩
      = (respErr 404 "Customer not found.", ⟨[], [], 1, 1⟩) :=
  c6_update_not_found _ _ _ (by decide) (by decide) (by decide) (by decide)
    (by decide)

/-- C7 counterexample: POST /api/addresses happily inserts an address row
whose customer_id (42) identifies no customer: address creation performs no
customer-existence check, so the belongs-to-a-customer invariant fails. -/
theorem c7_dangling_address_counterexample :
    ((⟨[], [], 1, 1⟩ : Store).customers.any (fun c => c.id == 42) = false)
    ∧ (postAddresses ⟨[], [], 1, 1⟩ ⟨42, "D", "C", "S", "123456"⟩).1.status
        = 201
    ∧ (postAddresses ⟨[], [], 1, 1⟩ ⟨42, "D", "C", "S", "123456"⟩).2.addresses
        = [⟨1, 42, "D", "C", "S", "123456"⟩]
    ∧ ((postAddresses ⟨[], [], 1, 1⟩
        ⟨42, "D", "C", "S", "123456"⟩).2.customers.any
          (fun c => c.id == 42) = false) := by
  refine ⟨by decide, by decide, by decide, by decide⟩

/-- C7 (amended): neither address-creation handler checks customer
existence.  POST /api/addresses answers 201 and appends the row with the
requested customer_id whenever its fields are present, and
POST /api/customers/:id/addresses answers 201 and appends the row with the
path id whenever its fields are present and the pin_code is six digits -
in both cases whether or not such a customer exists. -/
theorem c7_address_create_unchecked :
    (∀ (st : Store) (r : PostAddressPayload),
      (r.customer_id == 0) = false → r.address_details.isEmpty = false →
      r.city.isEmpty = false → r.state.isEmpty = false →
      r.pin_code.isEmpty = false →
      (postAddresses st r).1.status = 201
      ∧ (postAddresses st r).2.addresses
          = st.addresses ++ [⟨st.nextAddressId, r.customer_id,
              r.address_details, r.city, r.state, r.pin_code⟩]
      ∧ (postAddresses st r).2.customers = st.customers)
    ∧ (∀ (st : Store) (cid : Nat) (r : AddressFieldsPayload),
      r.address_details.isEmpty = false → r.city.isEmpty = false →
      r.state.isEmpty = false → r.pin_code.isEmpty = false →
      isDigitsLen 6 r.pin_code = true →
      (postCustomerAddress st cid r).1.status = 201
      ∧ (postCustomerAddress st cid r).2.addresses
          = st.addresses ++ [⟨st.nextAddressId, cid,
              r.address_details, r.city, r.state, r.pin_code⟩]
      ∧ (postCustomerAddress st cid r).2.customers = st.customers) := by
  constructor
  · intro st r h0 h1 h2 h3 h4
    refine ⟨?_, ?_, ?_⟩ <;> simp [postAddresses, h0, h1, h2, h3, h4]
  · intro st cid r h1 h2 h3 h4 h5
    refine ⟨?_, ?_, ?_⟩ <;>
      simp [postCustomerAddress, h1, h2, h3, h4, h5]

/-- C7 witness: both conjuncts applied at a store without customer 42: the
flat route and the nested route each insert the dangling row with 201. -/
theorem c7_address_create_unchecked_witness :
    ((postAddresses ⟨[], [], 1, 1⟩ ⟨42, "D", "C", "S", "123456"⟩).1.status
        = 201
     ∧ (postAddresses ⟨[], [], 1, 1⟩
          ⟨42, "D", "C", "S", "123456"⟩).2.addresses
        = [] ++ [⟨1, 42, "D", "C", "S", "123456"⟩]
     ∧ (postAddresses ⟨[], [], 1, 1⟩
          ⟨42, "D", "C", "S", "123456"⟩).2.customers = [])
    ∧ ((postCustomerAddress ⟨[], [], 1, 1⟩ 42
          ⟨"D", "C", "S", "123456"⟩).1.status = 201
     ∧ (postCustomerAddress ⟨[], [], 1, 1⟩ 42
          ⟨"D", "C", "S", "123456"⟩).2.addresses
        = [] ++ [⟨1, 42, "D", "C", "S", "123456"⟩]
     ∧ (postCustomerAddress ⟨[], [], 1, 1⟩ 42
          ⟨"D", "C", "S", "123456"⟩).2.customers = []) :=
  ⟨c7_address_create_unchecked.1 ⟨[], [], 1, 1⟩ ⟨42, "D", "C", "S", "123456"⟩
      (by decide) (by decide) (by decide) (by decide) (by decide),
   c7_address_create_unchecked.2 ⟨[], [], 1, 1⟩ 42 ⟨"D", "C", "S", "123456"⟩
      (by decide) (by decide) (by decide) (by decide) (by decide)⟩

/-- C9: for the three transactional handlers, over every combination of
duplicate/not-found outcome, optional address payload and query fault, the
connection-event trace acquires exactly once, releases exactly once, and
ends with the release - the finally block runs on success, business
rejection and store error alike. -/
theorem c9_connection_released_on_all_paths :
    (∀ dup fCheck fInsC fInsA fCommit : Bool,
      (createCustomerTrace dup fCheck fInsC fInsA fCommit).count
          DbEvent.release = 1
      ∧ (createCustomerTrace dup fCheck fInsC fInsA fCommit).count
          DbEvent.acquire = 1
      ∧ (createCustomerTrace dup fCheck fInsC fInsA fCommit).getLast?
          = some DbEvent.release)
    ∧ (∀ found withAddr fUpd fInsA fCommit : Bool,
      (updateCustomerTrace found withAddr fUpd fInsA fCommit).count
          DbEvent.release = 1
      ∧ (updateCustomerTrace found withAddr fUpd fInsA fCommit).count
          DbEvent.acquire = 1
      ∧ (updateCustomerTrace found withAddr fUpd fInsA fCommit).getLast?
          = some DbEvent.release)
    ∧ (∀ found fDelA fDelC fCommit : Bool,
      (deleteCustomerTrace found fDelA fDelC fCommit).count
          DbEvent.release = 1
      ∧ (deleteCustomerTrace found fDelA fDelC fCommit).count
          DbEvent.acquire = 1
      ∧ (deleteCustomerTrace found fDelA fDelC fCommit).getLast?
          = some DbEvent.release) := by
  refine ⟨?_, ?_, ?_⟩ <;> decide

/-- C10: when the customer exists and address_details is nonempty but city,
state or pin_code is missing, the update inserts no address row yet reports
"Customer and address updated successfully.", because the insert guard tests
all four fields while the message tests only address_details. -/
theorem c10_update_message_mismatch (st : Store) (cid : Nat)
    (r : CustomerPayload)
    (h1 : r.first_name.isEmpty = false) (h2 : r.last_name.isEmpty = false)
    (h3 : r.phone_number.isEmpty = false)
    (h8 : isDigitsLen 10 r.phone_number = true)
    (hex : st.customers.countP (fun c => c.id == cid) ≠ 0)
    (had : r.address_details.isEmpty = false)
    (hmiss : (r.city.isEmpty || r.state.isEmpty || r.pin_code.isEmpty)
        = true) :
    (updateCustomer st cid r).1
        = respMsg 200 "Customer and address updated successfully."
      ∧ (updateCustomer st cid r).2.addresses = st.addresses := by
  have hrc : (st.customers.countP (fun c => c.id == cid) == 0) = false :=
    beq_eq_false_iff_ne.mpr hex
  simp only [Bool.or_eq_true] at hmiss
  rcases hmiss with (h | h) | h
  · constructor <;> simp [updateCustomer, h1, h2, h3, h8, hrc, had, h]
  · constructor <;> simp [updateCustomer, h1, h2, h3, h8, hrc, had, h]
  · constructor <;> simp [updateCustomer, h1, h2, h3, h8, hrc, had, h]

/-- C10 witness: concrete update with address_details but empty city. -/
theorem c10_update_message_mismatch_witness :
    (updateCustomer ⟨[⟨7, "A", "B", "1234567890"⟩], [], 8, 1⟩ 7
        ⟨"A", "B", "1234567890", "X", "", "", ""⟩).1
        = respMsg 200 "Customer and address updated successfully."
    ∧ (updateCustomer ⟨[⟨7, "A", "B", "1234567890"⟩], [], 8, 1⟩ 7
        ⟨"A", "B", "1234567890", "X", "", "", ""⟩).2.addresses = [] :=
  c10_update_message_mismatch _ 7 _ (by decide) (by decide) (by decide)
    (by decide) (by decide) (by decide) (by decide)

theorem listCustomers_eq_map_filter (st : Store) (q ac : Option String) :
    listCustomers st q ac
      = ((sortByIdDesc (fun c : Customer => c.id) st.customers).filter
            (includedInList st (effTerm q) ac)).map
          (mkRow st (effTerm q)) := by
  show (sortByIdDesc (fun c : Customer => c.id) st.customers).filterMap
      (fun c => if includedInList st (effTerm q) ac c = true
        then some (mkRow st (effTerm q) c) else none) = _
  exact filterMap_if_eq_map_filter _ _ _

theorem sorted_base_nodup {l : List Customer}
    (h : (l.map (fun c => c.id)).Nodup) :
    ((sortByIdDesc (fun c : Customer => c.id) l).map
        (fun c => c.id)).Nodup := by
  have hperm := (sortByIdDesc_perm (fun c : Customer => c.id) l).map
      (fun c => c.id)
  exact hperm.nodup_iff.mpr h

/-- C4 counterexample: an addressCount value other than single/multiple
(here "x") makes the count query drop its GROUP BY while the list query
keeps it, so the count (2 join rows) exceeds the list length (1 customer):
the two queries do not implement identical filter semantics for every
combination. -/
theorem c4_count_list_divergence_counterexample :
    countCustomers
        ⟨[⟨1, "aa", "bb", "0000000000"⟩],
         [⟨1, 1, "d1", "pp", "ss", "111111"⟩,
          ⟨2, 1, "d2", "qq", "ss", "222222"⟩], 2, 3⟩ none (some "x") = 2
    ∧ (listCustomers
        ⟨[⟨1, "aa", "bb", "0000000000"⟩],
         [⟨1, 1, "d1", "pp", "ss", "111111"⟩,
          ⟨2, 1, "d2", "qq", "ss", "222222"⟩], 2, 3⟩ none (some "x")).length
        = 1 := by
  refine ⟨by decide, by decide⟩

/-- C4 (amended): for the defined addressCount filter states - omitted,
blank, "single" or "multiple" - and any search term, the count returned by
GET /api/customers/count equals the number of rows returned by
GET /api/customers with the same filters (customer ids unique, as the store
generates them). Any other nonblank addressCount value makes the count
query skip grouping and count join rows instead. -/
theorem c4_count_matches_list (st : Store) (q ac : Option String)
    (hnd : (st.customers.map (fun c => c.id)).Nodup)
    (hac : ac = none ∨ ac = some "" ∨ ac = some "single"
      ∨ ac = some "multiple") :
    countCustomers st q ac = (listCustomers st q ac).length := by
  rcases hac with h | h | h | h <;> subst h
  · rw [countCustomers_none_eq, length_listCustomers]
    exact count_eq_list_ungrouped st q hnd
  · rw [countCustomers_blank_eq, length_listCustomers,
      count_eq_list_ungrouped st q hnd]
    apply countP_congr_bool
    intro c _
    simp [includedInList, havingOk]
  · exact count_eq_list_single st q hnd
  · exact count_eq_list_multiple st q hnd

/-- C4 witness: the amended theorem applied at a concrete store with a
search term and the single filter. -/
theorem c4_count_matches_list_witness :
    countCustomers
        ⟨[⟨1, "aa", "bb", "0000000000"⟩],
         [⟨1, 1, "d1", "pp", "ss", "111111"⟩,
          ⟨2, 1, "d2", "qq", "ss", "222222"⟩], 2, 3⟩
        (some "pp") (some "single")
      = (listCustomers
        ⟨[⟨1, "aa", "bb", "0000000000"⟩],
         [⟨1, 1, "d1", "pp", "ss", "111111"⟩,
          ⟨2, 1, "d2", "qq", "ss", "222222"⟩], 2, 3⟩
        (some "pp") (some "single")).length :=
  c4_count_matches_list _ (some "pp") (some "single") (by decide)
    (Or.inr (Or.inr (Or.inl rfl)))

/-- C5 counterexample: with search term "pp" and addressCount=single, the
customer is returned although it has two addresses: the HAVING clause
counts only the join rows that survived the search WHERE, and exactly one
of the two addresses matches "pp". -/
theorem c5_single_filter_counterexample :
    ((listCustomers
        ⟨[⟨1, "aa", "bb", "0000000000"⟩],
         [⟨1, 1, "d1", "pp", "ss", "111111"⟩,
          ⟨2, 1, "d2", "qq", "ss", "222222"⟩], 2, 3⟩
        (some "pp") (some "single")).map (fun row => row.id) = [1])
    ∧ (addrsOf
        ⟨[⟨1, "aa", "bb", "0000000000"⟩],
         [⟨1, 1, "d1", "pp", "ss", "111111"⟩,
          ⟨2, 1, "d2", "qq", "ss", "222222"⟩], 2, 3⟩ 1).length = 2 := by
  refine ⟨by decide, by decide⟩

/-- C5 (amended): for list requests without a (nonblank) search term:
addressCount=single returns only customers with exactly one address,
addressCount=multiple only customers with at least two, and omitting the
parameter returns every customer, including those with zero addresses.
With a search term the filter counts only the search-matching join rows. -/
theorem c5_address_count_filter (st : Store) (q : Option String)
    (hq : effTerm q = none) :
    (∀ row ∈ listCustomers st q (some "single"),
        (addrsOf st row.id).length = 1)
    ∧ (∀ row ∈ listCustomers st q (some "multiple"),
        2 ≤ (addrsOf st row.id).length)
    ∧ (∀ c ∈ st.customers,
        ∃ row ∈ listCustomers st q none, row.id = c.id) := by
  refine ⟨?_, ?_, ?_⟩
  · intro row hrow
    obtain ⟨c, hc, hinc, hmk⟩ := mem_listCustomers_iff.mp hrow
    rw [hq] at hinc hmk
    rw [includedInList_none] at hinc
    have hid : row.id = c.id := by
      rw [← hmk]
      rfl
    rw [hid]
    have hb : ((addrsOf st c.id).length == 1) = true := hinc
    simpa using hb
  · intro row hrow
    obtain ⟨c, hc, hinc, hmk⟩ := mem_listCustomers_iff.mp hrow
    rw [hq] at hinc hmk
    rw [includedInList_none] at hinc
    have hid : row.id = c.id := by
      rw [← hmk]
      rfl
    rw [hid]
    have hb : decide (1 < (addrsOf st c.id).length) = true := hinc
    have := of_decide_eq_true hb
    omega
  · intro c hc
    refine ⟨mkRow st none c, ?_, ?_⟩
    · apply mem_listCustomers_iff.mpr
      refine ⟨c, hc, ?_, ?_⟩
      · rw [hq, includedInList_none]
        rfl
      · rw [hq]
    · rfl

/-- C5 witness: the amended theorem applied at a concrete one-customer
store: the omitted filter returns that customer. -/
theorem c5_address_count_filter_witness :
    ∃ row ∈ listCustomers ⟨[⟨1, "A", "B", "1234567890"⟩], [], 2, 1⟩
        none none, row.id = 1 :=
  (c5_address_count_filter ⟨[⟨1, "A", "B", "1234567890"⟩], [], 2, 1⟩ none
      rfl).2.2 ⟨1, "A", "B", "1234567890"⟩ (by decide)

/-- C8: every list/search result carries exactly one output row per
matching customer, aggregates addresses as a plain list that is empty
(never null) when the customer has none, and is ordered by strictly
descending customer id. -/
theorem c8_result_shape (st : Store) (q ac : Option String)
    (hnd : (st.customers.map (fun c => c.id)).Nodup) :
    (∀ c ∈ st.customers, searchSelects st (q.getD "") c = true →
        (searchCustomers st q).countP
          (fun row => row.customer.id == c.id) = 1)
    ∧ (∀ row ∈ searchCustomers st q,
        row.addresses = addrsOf st row.customer.id)
    ∧ ((searchCustomers st q).map (fun row => row.customer.id)).Pairwise
        (fun i j => j < i)
    ∧ ((listCustomers st q ac).map (fun row => row.id)).Pairwise
        (fun i j => j < i)
    ∧ (∀ row ∈ listCustomers st q ac,
        addrsOf st row.id = [] → row.addresses = []) := by
  have hBnd : ((searchBase st (q.getD "")).map (fun c => c.id)).Nodup :=
    searchBase_nodup_ids hnd
  have hSnd : ((sortByIdDesc (fun c : Customer => c.id)
      (searchBase st (q.getD ""))).map (fun c => c.id)).Nodup :=
    sorted_base_nodup hBnd
  refine ⟨?_, ?_, ?_, ?_, ?_⟩
  · intro c hc hsel
    rw [searchCustomers_eq, List.countP_map]
    have hmem : c ∈ sortByIdDesc (fun c : Customer => c.id)
        (searchBase st (q.getD "")) :=
      mem_sortByIdDesc.mpr (mem_searchBase.mpr ⟨hc, hsel⟩)
    exact countP_key_eq_one (fun b : Customer => b.id) hmem hSnd
  · intro row hrow
    rw [searchCustomers_eq] at hrow
    obtain ⟨c, _, hcrow⟩ := List.mem_map.mp hrow
    rw [← hcrow]
    show (aggAddrs st c).getD [] = addrsOf st c.id
    exact aggAddrs_getD st c
  · rw [searchCustomers_eq, List.map_map]
    apply List.pairwise_map.mpr
    exact pairwise_gt_of_sorted_nodup
      (sortByIdDesc_sorted (fun c : Customer => c.id) _) hSnd
  · rw [listCustomers_eq_map_filter, List.map_map]
    apply List.pairwise_map.mpr
    have hsorted := (sortByIdDesc_sorted (fun c : Customer => c.id)
        st.customers).filter (includedInList st (effTerm q) ac)
    have hnd2 := sorted_base_nodup (l := st.customers) hnd
    have hsub := (List.filter_sublist
        (l := sortByIdDesc (fun c : Customer => c.id) st.customers)
        (p := includedInList st (effTerm q) ac)).map (fun c => c.id)
    have hfnd : (((sortByIdDesc (fun c : Customer => c.id)
        st.customers).filter (includedInList st (effTerm q) ac)).map
          (fun c => c.id)).Nodup :=
      List.Nodup.sublist hsub hnd2
    exact pairwise_gt_of_sorted_nodup hsorted hfnd
  · intro row hrow hnil
    obtain ⟨c, hc, hinc, hmk⟩ := mem_listCustomers_iff.mp hrow
    have hid : row.id = c.id := by
      rw [← hmk]
      rfl
    rw [hid] at hnil
    rw [← hmk]
    exact mkRow_addresses_nil hnil

/-- C8 witness: the claim theorem applied at a concrete store. -/
theorem c8_result_shape_witness :
    (searchCustomers ⟨[⟨1, "A", "B", "1234567890"⟩], [], 2, 1⟩ none).countP
        (fun row => row.customer.id == 1) = 1 :=
  (c8_result_shape ⟨[⟨1, "A", "B", "1234567890"⟩], [], 2, 1⟩ none none
      (by decide)).1 ⟨1, "A", "B", "1234567890"⟩ (by decide) (by decide)

end CustomerAddressService
